import Mathlib

/-!
Verification development for the Cypress PSoC6 RTC adapter
(`targets/TARGET_Cypress/TARGET_PSOC6_FUTURE/rtc_api.c`).

The adapter bridges a hardware RTC with a two-digit year field to a
1970-2106 calendar by keeping a century counter, the last observed
two-digit year and a magic validity tag in one backup register.  The
definitions below are a shallow embedding of the C source: the backup
register and the peripheral date/time record become explicit state, the
vendor driver's status code becomes a parameter, and the fatal-error
call becomes an `Option Nat` field of the outcome.  The external
calendar conversion routines (`_rtc_localtime` / `_rtc_maketime`) are
not part of the analysed source and are modelled from the spec.
-/

set_option maxRecDepth 8192

namespace PSoC6RTC

/-- Backup register layout constants, from the C `#define` block. -/
def BR_CENTURY_CORR_MASK : Nat := 0x00000180

/-- Bit position of the century field inside the backup register. -/
def BR_CENTURY_CORR_POS : Nat := 7

/-- Mask of the last-two-digit-year field inside the backup register. -/
def BR_LAST_YEAR_READ_MASK : Nat := 0x0000007f

/-- Mask covering the magic-tag bits of the backup register. -/
def BR_CORR_MAGIC_MASK : Nat := 0xfffffe00

/-- The magic validity tag value. -/
def BR_CORR_MAGIC : Nat := 0x61cafe00

/-- Vendor constant: 24-hour format selector of `cy_en_rtc_hours_format_t`. -/
def CY_RTC_24_HOURS : Nat := 0

/-- Vendor constant: Saturday in the vendor day-of-week encoding (1..7). -/
def CY_RTC_SATURDAY : Nat := 7

/-- Vendor constant: success status of `cy_en_rtc_status_t`. -/
def CY_RTC_SUCCESS : Nat := 0

/-- The vendor `cy_stc_rtc_config_t` date/time record (all fields unsigned). -/
structure CyRtcConfig where
  hrFormat : Nat
  sec : Nat
  min : Nat
  hour : Nat
  dayOfWeek : Nat
  date : Nat
  month : Nat
  year : Nat
deriving DecidableEq

/-- The adapter's mutable state: the backup register word, the peripheral
date/time record, and the file-static `enabled` flag. -/
structure RtcState where
  breg : Nat
  hw : CyRtcConfig
  enabled : Bool
deriving DecidableEq

/-- Shallow embedding of `rtc_read_convert_year`.  Takes the current backup
register word and the hardware two-digit year; returns the decoded year
(`century * 100 + short_year`) together with the rewritten backup register.
The `% 256` mirrors the `uint8_t` parameter conversion at the call sites. -/
def rtc_read_convert_year (breg : Nat) (short_year_arg : Nat) : Nat × Nat :=
  let short_year := short_year_arg % 256
  let last_year_read := breg &&& BR_LAST_YEAR_READ_MASK
  let century0 := (breg &&& BR_CENTURY_CORR_MASK) >>> BR_CENTURY_CORR_POS
  let century := if short_year < last_year_read then century0 + 1 else century0
  let new_val := ((century <<< BR_CENTURY_CORR_POS) &&& BR_CENTURY_CORR_MASK) |||
    (short_year &&& BR_LAST_YEAR_READ_MASK) ||| BR_CORR_MAGIC
  (century * 100 + short_year, new_val)

/-- Shallow embedding of `rtc_write_convert_year`.  Splits the absolute
(`tm`-convention) year into century and remainder; returns the remainder for
the hardware write together with the rewritten backup register. -/
def rtc_write_convert_year (long_year : Nat) : Nat × Nat :=
  let century := long_year / 100
  let short_year := long_year - century * 100
  let new_breg := ((century <<< BR_CENTURY_CORR_POS) &&& BR_CENTURY_CORR_MASK) |||
    (short_year &&& BR_LAST_YEAR_READ_MASK) ||| BR_CORR_MAGIC
  (short_year, new_breg)

/-- Modelled from the spec: vendor range-check macro, seconds 0..59. -/
def CY_RTC_IS_SEC_VALID (sec : Nat) : Bool := sec ≤ 59

/-- Modelled from the spec: vendor range-check macro, minutes 0..59. -/
def CY_RTC_IS_MIN_VALID (m : Nat) : Bool := m ≤ 59

/-- Modelled from the spec: vendor range-check macro, hours 0..23 (24h). -/
def CY_RTC_IS_HOUR_VALID (hour : Nat) : Bool := hour ≤ 23

/-- Modelled from the spec: vendor range-check macro, day of week 1..7. -/
def CY_RTC_IS_DOW_VALID (dow : Nat) : Bool := 1 ≤ dow && dow ≤ 7

/-- Modelled from the spec: vendor range-check macro, month 1..12. -/
def CY_RTC_IS_MONTH_VALID (month : Nat) : Bool := 1 ≤ month && month ≤ 12

/-- Modelled from the spec: vendor range-check macro, two-digit year 0..99. -/
def CY_RTC_IS_YEAR_SHORT_VALID (year : Nat) : Bool := year ≤ 99

/-- Broken-down calendar time (`struct tm` fields used by the adapter;
`tm_year` counts years since 1900 per the external convention, `tm_mon` is
0-based).  All values that reach these fields here are nonnegative. -/
structure Tm where
  tm_sec : Nat
  tm_min : Nat
  tm_hour : Nat
  tm_mday : Nat
  tm_mon : Nat
  tm_year : Nat
deriving DecidableEq

/-- Modelled from the spec: the 4-year leap rule of the external calendar
conversion.  With `tm_year` counted since 1900, the absolute year is
divisible by 4 exactly when `tm_year` is. -/
def isLeap (tm_year : Nat) : Bool := tm_year % 4 == 0

/-- Month lengths for a (non-)leap year. -/
def monthDays (leap : Bool) : List Nat :=
  [31, if leap then 29 else 28, 31, 30, 31, 30, 31, 31, 30, 31, 30, 31]

/-- Days from the start of the year to the start of 0-based month `mon`. -/
def daysBeforeMonth (leap : Bool) (mon : Nat) : Nat :=
  ((monthDays leap).take mon).sum

/-- Splits a 0-based day-of-year into a 0-based month and a 1-based day of
month, walking the month-length list. -/
def monthFromDoy : List Nat → Nat → Nat × Nat
  | [], doy => (0, doy + 1)
  | ml :: rest, doy =>
    if doy < ml then (0, doy + 1)
    else
      let p := monthFromDoy rest (doy - ml)
      (p.fst + 1, p.snd)

/-- Days from 1970-01-01 to the start of year `tm_year` (years since 1900,
4-year leap rule; leap years among 1970..1899+tm_year are the multiples
of 4). -/
def daysBeforeYear (tm_year : Nat) : Nat :=
  365 * (tm_year - 70) + (tm_year - 70 + 1) / 4

/-- Splits a count of days since 1970-01-01 into (`tm_year`, 0-based
day-of-year) under the 4-year leap rule.  A four-year block starting 1970
has 1461 days with the leap year at index 2. -/
def yearDoyFromDays (days : Nat) : Nat × Nat :=
  let q := days / 1461
  let r := days % 1461
  if r < 365 then (70 + 4 * q, r)
  else if r < 730 then (71 + 4 * q, r - 365)
  else if r < 1096 then (72 + 4 * q, r - 730)
  else (73 + 4 * q, r - 1096)

/-- The broken-down time for `n` seconds since the epoch. -/
def localTm (n : Nat) : Tm :=
  let days := n / 86400
  let sod := n % 86400
  let yd := yearDoyFromDays days
  let md := monthFromDoy (monthDays (isLeap yd.fst)) yd.snd
  { tm_sec := sod % 60, tm_min := sod / 60 % 60, tm_hour := sod / 3600,
    tm_mday := md.snd, tm_mon := md.fst, tm_year := yd.fst }

/-- Modelled from the spec: the external `_rtc_localtime` with
`RTC_4_YEAR_LEAP_YEAR_SUPPORT`.  The representable range spans
1970..2106 (32 bits of seconds); outside it the conversion reports
failure, which the C caller sees as a `false` return. -/
def _rtc_localtime (t : Int) : Option Tm :=
  if t < 0 ∨ 4294967295 < t then none
  else some (localTm t.toNat)

/-- Modelled from the spec: the external `_rtc_maketime` with
`RTC_4_YEAR_LEAP_YEAR_SUPPORT`.  Fails (the C routine then leaves the
output untouched) when the year is before 1970 or the result falls
outside the representable 1970..2106 range. -/
def _rtc_maketime (g : Tm) : Option Nat :=
  if g.tm_year < 70 then none
  else
    let secs := (daysBeforeYear g.tm_year + daysBeforeMonth (isLeap g.tm_year) g.tm_mon +
      (g.tm_mday - 1)) * 86400 + g.tm_hour * 3600 + g.tm_min * 60 + g.tm_sec
    if secs < 4294967296 then some secs else none

/-- Modelled from the spec: the weekday computed internally by the vendor
`Cy_RTC_SetDateAndTimeDirect` (Zeller congruence on the vendor's 2000-based
short year); the adapter never reads it back. -/
def cyConvertDayOfWeek (date month year : Nat) : Nat :=
  let m := if month < 3 then month + 12 else month
  let y := if month < 3 then 2000 + year - 1 else 2000 + year
  (date + 13 * (m + 1) / 5 + y + y / 4 + 6 * (y / 100) + y / 400) % 7 + 1

/-- Outcome of an operation that may program the peripheral and may raise a
fatal error: the resulting state, whether a driver programming call was
issued, and the status code passed to `error()` if it was. -/
structure InitOutcome where
  state : RtcState
  programmed : Bool
  fatalError : Option Nat
deriving DecidableEq

/-- The static `init_val` default configuration of `rtc_init` (epoch
1970-01-01 00:00:00, day 1, month 1, fixed Saturday weekday), with the
`year` field patched as in the source. -/
def init_val (year : Nat) : CyRtcConfig :=
  { hrFormat := CY_RTC_24_HOURS, sec := 0, min := 0, hour := 0,
    dayOfWeek := CY_RTC_SATURDAY, date := 1, month := 1, year := year }

/-- The reinitialization arm of `rtc_init`: encode year 1970, program the
peripheral with `init_val` (`Cy_RTC_Init`), mark enabled on success, raise
a fatal error carrying the driver status otherwise.  `status` is the status
the vendor driver returns for the programming call. -/
def rtc_reinit (status : Nat) (s : RtcState) : InitOutcome :=
  let enc := rtc_write_convert_year 70
  if status == CY_RTC_SUCCESS then
    ⟨{ s with breg := enc.snd, hw := init_val enc.fst, enabled := true }, true, none⟩
  else
    ⟨{ s with breg := enc.snd }, true, some status⟩

/-- Shallow embedding of `rtc_init`.  If not yet enabled, reads the hardware
record, validates it (note: the day-of-month field is not checked), checks
the magic tag and the decoded year, and either accepts the state as enabled
or reprograms the peripheral via `rtc_reinit`.  The decode of the two-digit
year rewrites the backup register as a side effect. -/
def rtc_init (status : Nat) (s : RtcState) : InitOutcome :=
  if s.enabled then ⟨s, false, none⟩
  else
    let t := s.hw
    if CY_RTC_IS_SEC_VALID t.sec && CY_RTC_IS_MIN_VALID t.min &&
        CY_RTC_IS_HOUR_VALID t.hour && CY_RTC_IS_DOW_VALID t.dayOfWeek &&
        CY_RTC_IS_MONTH_VALID t.month && CY_RTC_IS_YEAR_SHORT_VALID t.year &&
        (t.hrFormat == CY_RTC_24_HOURS) &&
        ((s.breg &&& BR_CORR_MAGIC_MASK) == BR_CORR_MAGIC) then
      let dec := rtc_read_convert_year s.breg t.year
      if 70 ≤ dec.fst then
        ⟨{ s with breg := dec.snd, enabled := true }, false, none⟩
      else
        rtc_reinit status { s with breg := dec.snd }
    else
      rtc_reinit status s

/-- Shallow embedding of `rtc_free`: nothing to do. -/
def rtc_free (s : RtcState) : RtcState := s

/-- Shallow embedding of `rtc_isenabled`. -/
def rtc_isenabled (s : RtcState) : Bool := s.enabled

/-- The broken-down time `rtc_read` assembles from the hardware record
(month shifted to 0-based, year through the century decode). -/
def rtc_read_gmt (s : RtcState) : Tm :=
  { tm_sec := s.hw.sec, tm_min := s.hw.min, tm_hour := s.hw.hour,
    tm_mday := s.hw.date, tm_mon := s.hw.month - 1,
    tm_year := (rtc_read_convert_year s.breg s.hw.year).fst }

/-- Shallow embedding of `rtc_read`.  Returns the epoch timestamp (left at
its initial zero when the calendar conversion fails) and the state with the
backup register rewritten by the decode. -/
def rtc_read (s : RtcState) : Int × RtcState :=
  let dec := rtc_read_convert_year s.breg s.hw.year
  let timestamp : Int :=
    match _rtc_maketime (rtc_read_gmt s) with
    | some ts => (ts : Int)
    | none => 0
  (timestamp, { s with breg := dec.snd })

/-- Outcome of `rtc_write`: resulting state, whether a driver programming
call (`Cy_RTC_SetDateAndTimeDirect`) was issued, and the status code passed
to `error()` if the driver rejected it. -/
structure WriteOutcome where
  state : RtcState
  programmed : Bool
  fatalError : Option Nat
deriving DecidableEq

/-- The state `rtc_write` installs when the driver accepts the programming
call for broken-down time `g`: backup register rewritten by the year
encoding, peripheral record holding the broken-down fields with the month
shifted back to 1-based and the encoded two-digit year, enabled flag
untouched. -/
def writtenState (g : Tm) (s : RtcState) : RtcState :=
  { breg := (rtc_write_convert_year g.tm_year).snd,
    hw := { hrFormat := CY_RTC_24_HOURS,
            sec := g.tm_sec, min := g.tm_min, hour := g.tm_hour,
            dayOfWeek := cyConvertDayOfWeek g.tm_mday (g.tm_mon + 1)
              (rtc_write_convert_year g.tm_year).fst,
            date := g.tm_mday, month := g.tm_mon + 1,
            year := (rtc_write_convert_year g.tm_year).fst },
    enabled := s.enabled }

/-- Shallow embedding of `rtc_write`.  If the calendar conversion reports
the timestamp unrepresentable the write is silently skipped; otherwise the
year is encoded (rewriting the backup register) and the peripheral is
programmed with the broken-down fields (`writtenState`).  `status` is
the status the vendor driver returns for the programming call; on
rejection a fatal error carries it. -/
def rtc_write (status : Nat) (t : Int) (s : RtcState) : WriteOutcome :=
  match _rtc_localtime t with
  | none => ⟨s, false, none⟩
  | some gmt =>
    if status == CY_RTC_SUCCESS then
      ⟨writtenState gmt s, true, none⟩
    else
      ⟨{ s with breg := (rtc_write_convert_year gmt.tm_year).snd }, true, some status⟩

/-- Iterated decode: runs `rtc_read_convert_year` over a list of observed
two-digit years, threading the backup register; returns the list of decoded
years and the final register. -/
def decodeSeq (breg : Nat) : List Nat → List Nat × Nat
  | [] => ([], breg)
  | y :: ys =>
    let d := rtc_read_convert_year breg y
    let rest := decodeSeq d.snd ys
    (d.fst :: rest.fst, rest.snd)

/-- A concrete all-zero sample state (backup register cleared, so the magic
tag is absent). -/
def zeroState : RtcState :=
  { breg := 0,
    hw := { hrFormat := 0, sec := 0, min := 0, hour := 0, dayOfWeek := 0,
            date := 0, month := 0, year := 0 },
    enabled := false }

/-- The all-zero sample state with the enabled flag already set. -/
def enabledState : RtcState := { zeroState with enabled := true }

/-- A sample state that passes every check `rtc_init` performs (magic tag
present, century 0, last year 70, matching hardware year 70, 24-hour format)
but whose day-of-month field holds the out-of-range value 45. -/
def badDayState : RtcState :=
  { breg := 0x61cafe00 + 70,
    hw := { hrFormat := CY_RTC_24_HOURS, sec := 0, min := 0, hour := 0,
            dayOfWeek := 5, date := 45, month := 1, year := 70 },
    enabled := false }

/-! Helper lemmas: arithmetic normal forms for the backup-register bit
operations. -/

theorem and_511_eq_mod (x : Nat) : x &&& 511 = x % 512 := by
  have h := Nat.and_pow_two_sub_one_eq_mod x 9
  norm_num at h
  exact h

theorem and_127_eq_mod (x : Nat) : x &&& 127 = x % 128 := by
  have h := Nat.and_pow_two_sub_one_eq_mod x 7
  norm_num at h
  exact h

theorem and_mask_reduce (x m : Nat) (hm : m < 512) : x &&& m = x % 512 &&& m := by
  have h1 : m &&& 511 = m := by
    rw [and_511_eq_mod, Nat.mod_eq_of_lt hm]
  calc x &&& m = x &&& (511 &&& m) := by rw [Nat.and_comm 511 m, h1]
    _ = x &&& 511 &&& m := (Nat.and_assoc x 511 m).symm
    _ = x % 512 &&& m := by rw [and_511_eq_mod]

theorem and_384_eq (x : Nat) : x &&& 384 = x / 128 % 4 * 128 := by
  rw [and_mask_reduce x 384 (by norm_num)]
  have h : ∀ v < 512, v &&& 384 = v / 128 % 4 * 128 := by decide
  rw [h (x % 512) (Nat.mod_lt x (by norm_num))]
  have h2 : x % 512 / 128 % 4 = x / 128 % 4 := by omega
  rw [h2]

theorem centuryField_eq (x : Nat) : (x &&& 384) >>> 7 = x / 128 % 4 := by
  rw [and_384_eq, Nat.shiftRight_eq_div_pow]
  norm_num

theorem or_fields : ∀ a < 4, ∀ b < 128, a * 128 ||| b = a * 128 + b := by decide

theorem or_magic : ∀ v < 512, v ||| 0x61cafe00 = 0x61cafe00 + v := by decide

theorem magic_fresh : ∀ v < 512, (0x61cafe00 + v) &&& 0xfffffe00 = 0x61cafe00 := by
  decide

theorem pack_eq (c s : Nat) :
    ((c <<< 7) &&& 384) ||| (s &&& 127) ||| 0x61cafe00 =
      0x61cafe00 + c % 4 * 128 + s % 128 := by
  rw [Nat.shiftLeft_eq, and_384_eq, and_127_eq_mod]
  have h1 : c * 2 ^ 7 / 128 % 4 = c % 4 := by
    norm_num
  rw [h1]
  rw [or_fields (c % 4) (Nat.mod_lt c (by norm_num)) (s % 128) (Nat.mod_lt s (by norm_num))]
  rw [or_magic (c % 4 * 128 + s % 128) (by omega)]
  omega

/-! Helper lemmas about the century codec. -/

theorem decode_no_wrap (breg y : Nat) (hy : y ≤ 99) (hge : breg % 128 ≤ y) :
    rtc_read_convert_year breg y =
      (breg / 128 % 4 * 100 + y, 0x61cafe00 + breg / 128 % 4 * 128 + y) := by
  unfold rtc_read_convert_year
  simp only [BR_LAST_YEAR_READ_MASK, BR_CENTURY_CORR_MASK, BR_CENTURY_CORR_POS,
    BR_CORR_MAGIC]
  have hmod : y % 256 = y := Nat.mod_eq_of_lt (by omega)
  rw [hmod, and_127_eq_mod breg, centuryField_eq breg]
  rw [if_neg (by omega)]
  rw [pack_eq]
  simp only [Prod.mk.injEq, true_and, and_true]
  omega

theorem decode_wrap (breg y : Nat) (hy : y ≤ 99) (hlt : y < breg % 128) :
    rtc_read_convert_year breg y =
      ((breg / 128 % 4 + 1) * 100 + y,
        0x61cafe00 + (breg / 128 % 4 + 1) % 4 * 128 + y) := by
  unfold rtc_read_convert_year
  simp only [BR_LAST_YEAR_READ_MASK, BR_CENTURY_CORR_MASK, BR_CENTURY_CORR_POS,
    BR_CORR_MAGIC]
  have hmod : y % 256 = y := Nat.mod_eq_of_lt (by omega)
  rw [hmod, and_127_eq_mod breg, centuryField_eq breg]
  rw [if_pos (by omega)]
  rw [pack_eq]
  simp only [Prod.mk.injEq, true_and, and_true]
  omega

theorem encode_eq (ty : Nat) :
    rtc_write_convert_year ty = (ty % 100, 0x61cafe00 + ty / 100 % 4 * 128 + ty % 100) := by
  unfold rtc_write_convert_year
  simp only [BR_LAST_YEAR_READ_MASK, BR_CENTURY_CORR_MASK, BR_CENTURY_CORR_POS,
    BR_CORR_MAGIC]
  rw [pack_eq]
  simp only [Prod.mk.injEq, true_and, and_true]
  omega

theorem codec_roundtrip (ty : Nat) (h : ty ≤ 399) :
    rtc_read_convert_year (rtc_write_convert_year ty).snd (rtc_write_convert_year ty).fst =
      (ty, (rtc_write_convert_year ty).snd) := by
  rw [encode_eq]
  rw [decode_no_wrap (0x61cafe00 + ty / 100 % 4 * 128 + ty % 100) (ty % 100) (by omega)
    (by omega)]
  simp only [Prod.mk.injEq, true_and, and_true]
  omega

/-! Helper lemmas about the modelled calendar conversion. -/

theorem month_split (leap : Bool) :
    ∀ doy < 366, doy < 365 ∨ leap = true →
      daysBeforeMonth leap (monthFromDoy (monthDays leap) doy).fst +
        ((monthFromDoy (monthDays leap) doy).snd - 1) = doy ∧
      (monthFromDoy (monthDays leap) doy).fst < 12 := by
  cases leap <;> decide

theorem year_split (days : Nat) :
    daysBeforeYear (yearDoyFromDays days).fst + (yearDoyFromDays days).snd = days ∧
    70 ≤ (yearDoyFromDays days).fst ∧
    (yearDoyFromDays days).snd < 366 ∧
    ((yearDoyFromDays days).snd < 365 ∨ isLeap (yearDoyFromDays days).fst = true) := by
  unfold yearDoyFromDays daysBeforeYear isLeap
  dsimp only
  split_ifs with h1 h2 h3 <;> simp only [Nat.beq_eq_true_eq] <;> omega

theorem year_le_169 (days : Nat) (h : days ≤ 36524) :
    (yearDoyFromDays days).fst ≤ 169 := by
  unfold yearDoyFromDays
  dsimp only
  split_ifs <;> omega

theorem maketime_localTm (n : Nat) (hn : n < 4294967296) :
    _rtc_maketime (localTm n) = some n := by
  obtain ⟨hy1, hy2, hy3, hy4⟩ := year_split (n / 86400)
  obtain ⟨hm1, hm2⟩ := month_split (isLeap (yearDoyFromDays (n / 86400)).fst)
    (yearDoyFromDays (n / 86400)).snd hy3 hy4
  unfold _rtc_maketime localTm
  simp only []
  rw [if_neg (by omega)]
  rw [if_pos (by omega)]
  congr 1
  omega

/-! Helper lemmas about the reinitialization arm. -/

theorem rtc_reinit_programmed (status : Nat) (s : RtcState) :
    (rtc_reinit status s).programmed = true := by
  unfold rtc_reinit
  split <;> rfl

theorem rtc_reinit_success (s : RtcState) :
    rtc_reinit CY_RTC_SUCCESS s =
      ⟨{ s with
          breg := (rtc_write_convert_year 70).snd
          hw := init_val 70
          enabled := true }, true, none⟩ := by
  unfold rtc_reinit
  rw [if_pos (by rfl)]
  rfl

theorem rtc_reinit_failure (status : Nat) (s : RtcState) (h : status ≠ CY_RTC_SUCCESS) :
    rtc_reinit status s =
      ⟨{ s with breg := (rtc_write_convert_year 70).snd }, true, some status⟩ := by
  unfold rtc_reinit
  rw [if_neg (by simpa using h)]

/-- C7: for every epoch timestamp that the external calendar conversion
reports as out of representable range, `rtc_write` performs no hardware
programming and no write to the persisted century register — the state is
returned unchanged — and no error is surfaced. -/
theorem c7_unrepresentable_write_skipped (status : Nat) (t : Int) (s : RtcState)
    (h : _rtc_localtime t = none) :
    rtc_write status t s = ⟨s, false, none⟩ := by
  unfold rtc_write
  rw [h]

/-- Witness for C7 at the unrepresentable timestamp -1 from the sample
state. -/
theorem c7_witness :
    _rtc_localtime (-1) = none ∧
    rtc_write 0 (-1) zeroState = ⟨zeroState, false, none⟩ :=
  ⟨by decide, c7_unrepresentable_write_skipped 0 (-1) zeroState (by decide)⟩

/-- C8: whenever the external calendar-to-epoch conversion fails during
`rtc_read`, the function returns the timestamp's initial value of zero; on
success it returns exactly the converted value, so there is no other error
path and a failure is indistinguishable from a legitimate epoch-zero read. -/
theorem c8_read_failure_yields_zero (s : RtcState) :
    (_rtc_maketime (rtc_read_gmt s) = none → (rtc_read s).fst = 0) ∧
    ∀ v, _rtc_maketime (rtc_read_gmt s) = some v → (rtc_read s).fst = (v : Int) := by
  refine ⟨fun h => ?_, fun v h => ?_⟩ <;> simp only [rtc_read, h]

/-- Witness for C8: from the all-zero state the decoded year is 0 (before
1970), the conversion fails, and the read returns zero. -/
theorem c8_witness :
    _rtc_maketime (rtc_read_gmt zeroState) = none ∧ (rtc_read zeroState).fst = 0 :=
  ⟨by decide, (c8_read_failure_yields_zero zeroState).1 (by decide)⟩

/-- C9: calling `rtc_init` while already enabled changes no state, issues no
programming call and raises no error; `rtc_free` is always a no-op; and once
the enabled flag is set, none of the interface operations clears it. -/
theorem c9_init_idempotent_enabled_sticky (status : Nat) (t : Int) (s : RtcState) :
    (s.enabled = true → rtc_init status s = ⟨s, false, none⟩) ∧
    rtc_free s = s ∧
    (s.enabled = true →
      (rtc_init status s).state.enabled = true ∧
      (rtc_read s).snd.enabled = true ∧
      (rtc_write status t s).state.enabled = true ∧
      (rtc_free s).enabled = true) := by
  refine ⟨fun h => ?_, rfl, fun h => ⟨?_, ?_, ?_, ?_⟩⟩
  · simp [rtc_init, h]
  · simp [rtc_init, h]
  · simpa [rtc_read] using h
  · unfold rtc_write
    cases hl : _rtc_localtime t with
    | none => simpa using h
    | some g =>
      dsimp only
      split <;> simpa using h
  · exact h

/-- Witness for C9 from a concrete enabled state. -/
theorem c9_witness :
    enabledState.enabled = true ∧
    rtc_init 0 enabledState = ⟨enabledState, false, none⟩ ∧
    rtc_free enabledState = enabledState ∧
    (rtc_read enabledState).snd.enabled = true ∧
    (rtc_write 0 5 enabledState).state.enabled = true := by
  have h := c9_init_idempotent_enabled_sticky 0 5 enabledState
  exact ⟨rfl, h.1 rfl, h.2.1, (h.2.2 rfl).2.1, (h.2.2 rfl).2.2.1⟩

/-- Convenience form of the magic-tag fact for freshly packed registers. -/
theorem magic_fresh_add (a b : Nat) (h : a + b < 512) :
    0x61cafe00 + a + b &&& 0xfffffe00 = 0x61cafe00 := by
  rw [Nat.add_assoc]
  exact magic_fresh (a + b) h

/-- C2 (amended): on a wrap (new two-digit year below the stored one) with
the stored century counter at most 2, the century is incremented exactly
once, the register is rewritten with the incremented century, the new
two-digit year and the magic tag, the returned value is
`century * 100 + two_digit_year` with the incremented century, and
subsequent non-decreasing decodes reflect the new century.  (When the
counter is already 3 the increment overflows the two-bit field; see the
counterexample.) -/
theorem c2_wrap_increments_century (breg y : Nat) (hy : y ≤ 99)
    (hwrap : y < breg &&& BR_LAST_YEAR_READ_MASK)
    (hcent : (breg &&& BR_CENTURY_CORR_MASK) >>> BR_CENTURY_CORR_POS ≤ 2) :
    (rtc_read_convert_year breg y).fst =
      ((breg &&& BR_CENTURY_CORR_MASK) >>> BR_CENTURY_CORR_POS + 1) * 100 + y ∧
    ((rtc_read_convert_year breg y).snd &&& BR_CENTURY_CORR_MASK) >>>
        BR_CENTURY_CORR_POS =
      (breg &&& BR_CENTURY_CORR_MASK) >>> BR_CENTURY_CORR_POS + 1 ∧
    (rtc_read_convert_year breg y).snd &&& BR_LAST_YEAR_READ_MASK = y ∧
    (rtc_read_convert_year breg y).snd &&& BR_CORR_MAGIC_MASK = BR_CORR_MAGIC ∧
    ∀ y2, y2 ≤ 99 → y ≤ y2 →
      (rtc_read_convert_year (rtc_read_convert_year breg y).snd y2).fst =
        ((breg &&& BR_CENTURY_CORR_MASK) >>> BR_CENTURY_CORR_POS + 1) * 100 + y2 := by
  simp only [show BR_LAST_YEAR_READ_MASK = 127 from rfl,
    show BR_CENTURY_CORR_MASK = 384 from rfl,
    show BR_CENTURY_CORR_POS = 7 from rfl,
    show BR_CORR_MAGIC_MASK = 0xfffffe00 from rfl,
    show BR_CORR_MAGIC = 0x61cafe00 from rfl,
    centuryField_eq, and_127_eq_mod] at hwrap hcent ⊢
  rw [decode_wrap breg y hy hwrap]
  dsimp only
  have hc4 : (breg / 128 % 4 + 1) % 4 = breg / 128 % 4 + 1 := by omega
  rw [hc4]
  refine ⟨rfl, by omega, by omega, ?_, ?_⟩
  · exact magic_fresh_add ((breg / 128 % 4 + 1) * 128) y (by omega)
  · intro y2 hy2 hyy2
    rw [decode_no_wrap _ y2 hy2 (by omega)]
    dsimp only
    omega

/-- Counterexample to C2 as stated: with the stored century counter at 3 and
stored last year 99, decoding year 0 is a wrap; the value returned is 400
(century incremented to 4), but the register is rewritten with century field
0 rather than the incremented century, and a subsequent decode returns 0 —
it does not reflect the new century. -/
theorem c2_counterexample :
    ((0x61cafe00 + 3 * 128 + 99) &&& BR_CENTURY_CORR_MASK) >>>
        BR_CENTURY_CORR_POS = 3 ∧
    0 < (0x61cafe00 + 3 * 128 + 99) &&& BR_LAST_YEAR_READ_MASK ∧
    (rtc_read_convert_year (0x61cafe00 + 3 * 128 + 99) 0).fst = 400 ∧
    ((rtc_read_convert_year (0x61cafe00 + 3 * 128 + 99) 0).snd &&&
        BR_CENTURY_CORR_MASK) >>> BR_CENTURY_CORR_POS = 0 ∧
    (rtc_read_convert_year
        (rtc_read_convert_year (0x61cafe00 + 3 * 128 + 99) 0).snd 0).fst = 0 := by
  decide

/-- Witness for C2 (amended) at a concrete register with century 1 and
stored last year 99, decoding year 0. -/
theorem c2_witness :
    (0 : Nat) ≤ 99 ∧
    0 < (0x61cafe00 + 1 * 128 + 99) &&& BR_LAST_YEAR_READ_MASK ∧
    ((0x61cafe00 + 1 * 128 + 99) &&& BR_CENTURY_CORR_MASK) >>>
        BR_CENTURY_CORR_POS ≤ 2 ∧
    (rtc_read_convert_year (0x61cafe00 + 1 * 128 + 99) 0).fst = 200 :=
  ⟨by decide, by decide, by decide, by
    rw [(c2_wrap_increments_century (0x61cafe00 + 1 * 128 + 99) 0 (by decide)
      (by decide) (by decide)).1]
    decide⟩

/-- C10: when a wrap is detected while the persisted century counter is 3,
the returned value is `400 + two_digit_year` (from the unmasked incremented
counter), but the century written back is reduced modulo 4 by the two-bit
field mask and persists as 0 (with the new year and intact magic tag), so
subsequent non-decreasing decodes restart from century 0. -/
theorem c10_century_field_truncated (breg y : Nat) (hy : y ≤ 99)
    (hcent : (breg &&& BR_CENTURY_CORR_MASK) >>> BR_CENTURY_CORR_POS = 3)
    (hwrap : y < breg &&& BR_LAST_YEAR_READ_MASK) :
    (rtc_read_convert_year breg y).fst = 400 + y ∧
    ((rtc_read_convert_year breg y).snd &&& BR_CENTURY_CORR_MASK) >>>
        BR_CENTURY_CORR_POS = 0 ∧
    (rtc_read_convert_year breg y).snd &&& BR_LAST_YEAR_READ_MASK = y ∧
    (rtc_read_convert_year breg y).snd &&& BR_CORR_MAGIC_MASK = BR_CORR_MAGIC ∧
    ∀ y2, y2 ≤ 99 → y ≤ y2 →
      (rtc_read_convert_year (rtc_read_convert_year breg y).snd y2).fst = y2 := by
  simp only [show BR_LAST_YEAR_READ_MASK = 127 from rfl,
    show BR_CENTURY_CORR_MASK = 384 from rfl,
    show BR_CENTURY_CORR_POS = 7 from rfl,
    show BR_CORR_MAGIC_MASK = 0xfffffe00 from rfl,
    show BR_CORR_MAGIC = 0x61cafe00 from rfl,
    centuryField_eq, and_127_eq_mod] at hwrap hcent ⊢
  rw [decode_wrap breg y hy hwrap]
  dsimp only
  have hsnd : (breg / 128 % 4 + 1) % 4 = 0 := by omega
  rw [hsnd]
  refine ⟨by omega, by omega, by omega, ?_, ?_⟩
  · exact magic_fresh_add (0 * 128) y (by omega)
  · intro y2 hy2 hyy2
    rw [decode_no_wrap _ y2 hy2 (by omega)]
    dsimp only
    omega

/-- Witness for C10 at the concrete register with century 3 and stored last
year 99, decoding year 0 and then year 5. -/
theorem c10_witness :
    (0 : Nat) ≤ 99 ∧
    ((0x61cafe00 + 3 * 128 + 99) &&& BR_CENTURY_CORR_MASK) >>>
        BR_CENTURY_CORR_POS = 3 ∧
    0 < (0x61cafe00 + 3 * 128 + 99) &&& BR_LAST_YEAR_READ_MASK ∧
    (rtc_read_convert_year
        (rtc_read_convert_year (0x61cafe00 + 3 * 128 + 99) 0).snd 5).fst = 5 :=
  ⟨by decide, by decide, by decide, by
    rw [(c10_century_field_truncated (0x61cafe00 + 3 * 128 + 99) 0 (by decide)
      (by decide) (by decide)).2.2.2.2 5 (by decide) (by decide)]⟩

/-- Arithmetic core of the monotone-decode property, by induction on the
observation list. -/
theorem decodeSeq_mono (ys : List Nat) : ∀ breg : Nat, (∀ y ∈ ys, y ≤ 99) →
    List.Chain (fun a b => a ≤ b) (breg % 128) ys →
    (decodeSeq breg ys).fst = ys.map (fun y => breg / 128 % 4 * 100 + y) ∧
    (decodeSeq breg ys).snd / 128 % 4 = breg / 128 % 4 := by
  induction ys with
  | nil => exact fun breg _ _ => ⟨rfl, rfl⟩
  | cons y ys ih =>
    intro breg hall hchain
    have hy : y ≤ 99 := hall y (List.mem_cons_self y ys)
    have hall2 : ∀ z ∈ ys, z ≤ 99 := fun z hz => hall z (List.mem_cons_of_mem y hz)
    cases hchain with
    | cons hle hch =>
      have hdec := decode_no_wrap breg y hy hle
      have hmod : (0x61cafe00 + breg / 128 % 4 * 128 + y) % 128 = y := by omega
      have hdiv : (0x61cafe00 + breg / 128 % 4 * 128 + y) / 128 % 4 =
          breg / 128 % 4 := by omega
      obtain ⟨ih1, ih2⟩ := ih (0x61cafe00 + breg / 128 % 4 * 128 + y) hall2
        (by rw [hmod]; exact hch)
      refine ⟨?_, ?_⟩
      · simp only [decodeSeq, hdec, List.map_cons, ih1, hdiv]
      · simp only [decodeSeq, hdec, ih2, hdiv]

/-- C6: for every sequence of decode calls whose two-digit year inputs stay
within a century (≤ 99) and never drop below the last value stored in the
register, every decode returns `century_base * 100 + two_digit_year` with
the persisted century counter unchanged — no spurious increment. -/
theorem c6_monotone_no_spurious_increment (breg : Nat) (ys : List Nat)
    (hall : ∀ y ∈ ys, y ≤ 99)
    (hchain : List.Chain (fun a b => a ≤ b) (breg &&& BR_LAST_YEAR_READ_MASK) ys) :
    (decodeSeq breg ys).fst =
      ys.map (fun y =>
        ((breg &&& BR_CENTURY_CORR_MASK) >>> BR_CENTURY_CORR_POS) * 100 + y) ∧
    ((decodeSeq breg ys).snd &&& BR_CENTURY_CORR_MASK) >>> BR_CENTURY_CORR_POS =
      (breg &&& BR_CENTURY_CORR_MASK) >>> BR_CENTURY_CORR_POS := by
  rw [show BR_LAST_YEAR_READ_MASK = 127 from rfl, and_127_eq_mod] at hchain
  simp only [show BR_CENTURY_CORR_MASK = 384 from rfl,
    show BR_CENTURY_CORR_POS = 7 from rfl, centuryField_eq]
  exact decodeSeq_mono ys breg hall hchain

/-- Witness for C6 on a concrete monotone sequence from a fresh register
with century 1 and last year 70. -/
theorem c6_witness :
    (∀ y ∈ [70, 85, 99], y ≤ 99) ∧
    List.Chain (fun a b => a ≤ b)
      ((0x61cafe00 + 1 * 128 + 70) &&& BR_LAST_YEAR_READ_MASK) [70, 85, 99] ∧
    (decodeSeq (0x61cafe00 + 1 * 128 + 70) [70, 85, 99]).fst = [170, 185, 199] := by
  have hch : List.Chain (fun a b => a ≤ b)
      ((0x61cafe00 + 1 * 128 + 70) &&& BR_LAST_YEAR_READ_MASK) [70, 85, 99] :=
    List.Chain.cons (by decide)
      (List.Chain.cons (by decide) (List.Chain.cons (by decide) List.Chain.nil))
  refine ⟨by decide, hch, ?_⟩
  rw [(c6_monotone_no_spurious_increment (0x61cafe00 + 1 * 128 + 70) [70, 85, 99]
    (by decide) hch).1]
  decide

/-- C5: for every year in [1970, 2069] (as `tm` years 70..169), starting
from a freshly reset century register (as written by encoding year 1970),
decoding the two-digit form of the year recovers the absolute year,
re-encoding it returns the original two-digit value, and the register the
decode persisted is exactly the one encoding the year would persist. -/
theorem c5_decode_encode_roundtrip (y : Nat) (hlt : y < 2070) (hge : 1970 ≤ y) :
    (rtc_read_convert_year (rtc_write_convert_year 70).snd ((y - 1900) % 100)).fst
      = y - 1900 ∧
    (rtc_write_convert_year
      (rtc_read_convert_year (rtc_write_convert_year 70).snd ((y - 1900) % 100)).fst).fst
      = (y - 1900) % 100 ∧
    (rtc_write_convert_year
      (rtc_read_convert_year (rtc_write_convert_year 70).snd ((y - 1900) % 100)).fst).snd
      = (rtc_read_convert_year (rtc_write_convert_year 70).snd ((y - 1900) % 100)).snd := by
  have hfresh : rtc_write_convert_year 70 = (70, 0x61cafe00 + 70) := by decide
  rw [hfresh]
  dsimp only
  by_cases hc : 70 ≤ (y - 1900) % 100
  · rw [decode_no_wrap (0x61cafe00 + 70) ((y - 1900) % 100) (by omega) (by omega)]
    dsimp only
    simp only [encode_eq]
    omega
  · rw [decode_wrap (0x61cafe00 + 70) ((y - 1900) % 100) (by omega) (by omega)]
    dsimp only
    simp only [encode_eq]
    omega

/-- Witness for C5 at the year 2000. -/
theorem c5_witness :
    (2000 : Nat) < 2070 ∧ (1970 : Nat) ≤ 2000 ∧
    (rtc_read_convert_year (rtc_write_convert_year 70).snd ((2000 - 1900) % 100)).fst
      = 100 :=
  ⟨by decide, by decide, (c5_decode_encode_roundtrip 2000 (by decide) (by decide)).1⟩

/-- C3 (amended): with the device not yet enabled, `rtc_init` accepts the
existing hardware state — enabled becomes true, no driver programming call
is issued, the hardware record is untouched and no error is raised — if and
only if seconds, minutes, hours, day-of-week, month and two-digit year are
in range, the 24-hour format is selected, the magic tag is intact, and the
decoded year is at least 1970 (tm year 70).  The day-of-month field is not
validated (see the counterexample to the original claim). -/
theorem c3_accept_iff (status : Nat) (s : RtcState) (hen : s.enabled = false) :
    ((rtc_init status s).programmed = false ∧
     (rtc_init status s).state.enabled = true ∧
     (rtc_init status s).state.hw = s.hw ∧
     (rtc_init status s).fatalError = none) ↔
    (s.hw.sec ≤ 59 ∧ s.hw.min ≤ 59 ∧ s.hw.hour ≤ 23 ∧
     1 ≤ s.hw.dayOfWeek ∧ s.hw.dayOfWeek ≤ 7 ∧
     1 ≤ s.hw.month ∧ s.hw.month ≤ 12 ∧ s.hw.year ≤ 99 ∧
     s.hw.hrFormat = CY_RTC_24_HOURS ∧
     s.breg &&& BR_CORR_MAGIC_MASK = BR_CORR_MAGIC ∧
     70 ≤ (rtc_read_convert_year s.breg s.hw.year).fst) := by
  unfold rtc_init
  rw [if_neg (by simp [hen])]
  dsimp only
  simp only [CY_RTC_IS_SEC_VALID, CY_RTC_IS_MIN_VALID, CY_RTC_IS_HOUR_VALID,
    CY_RTC_IS_DOW_VALID, CY_RTC_IS_MONTH_VALID, CY_RTC_IS_YEAR_SHORT_VALID,
    Bool.and_eq_true, decide_eq_true_eq, beq_iff_eq]
  split_ifs with hc hd
  · dsimp only
    constructor
    · intro _
      tauto
    · intro _
      exact ⟨rfl, rfl, rfl, rfl⟩
  · simp only [rtc_reinit_programmed]
    constructor
    · intro h
      exact Bool.noConfusion h.1
    · intro h
      exact absurd h.2.2.2.2.2.2.2.2.2.2 hd
  · simp only [rtc_reinit_programmed]
    constructor
    · intro h
      exact Bool.noConfusion h.1
    · intro h
      exact absurd (by tauto) hc

/-- Counterexample to C3 as stated: a state whose day-of-month field holds
45 — out of the 1..31 range for any month — while every checked field is
valid; `rtc_init` still accepts it as enabled with no programming call, so
"every hardware date/time field (... day ...) is in range" is not necessary
for acceptance. -/
theorem c3_counterexample :
    badDayState.enabled = false ∧
    (rtc_init CY_RTC_SUCCESS badDayState).programmed = false ∧
    (rtc_init CY_RTC_SUCCESS badDayState).state.enabled = true ∧
    (rtc_init CY_RTC_SUCCESS badDayState).state.hw = badDayState.hw ∧
    (rtc_init CY_RTC_SUCCESS badDayState).fatalError = none ∧
    ¬(1 ≤ badDayState.hw.date ∧ badDayState.hw.date ≤ 31) := by
  decide

/-- Witness for C3 (amended), applying the equivalence right-to-left at a
concrete valid state. -/
theorem c3_witness :
    badDayState.enabled = false ∧
    ((rtc_init 0 badDayState).programmed = false ∧
     (rtc_init 0 badDayState).state.enabled = true ∧
     (rtc_init 0 badDayState).state.hw = badDayState.hw ∧
     (rtc_init 0 badDayState).fatalError = none) :=
  ⟨rfl, (c3_accept_iff 0 badDayState rfl).mpr (by decide)⟩

/-- C4: with the device not yet enabled, whenever the magic tag does not
match or the hardware year decodes to before 1970, `rtc_init` issues a
programming call with the 1970-01-01 00:00:00 default configuration (day 1,
month 1, fixed weekday, encoded year for 1970); on driver success the
enabled flag is set and no error is raised, and on driver rejection a fatal
error carrying the driver's status code is raised and the flag stays
clear. -/
theorem c4_bad_state_reprograms (status : Nat) (s : RtcState)
    (hen : s.enabled = false)
    (hbad : s.breg &&& BR_CORR_MAGIC_MASK ≠ BR_CORR_MAGIC ∨
            (rtc_read_convert_year s.breg s.hw.year).fst < 70) :
    (rtc_init status s).programmed = true ∧
    (status = CY_RTC_SUCCESS →
      (rtc_init status s).state.hw = init_val 70 ∧
      (rtc_init status s).state.enabled = true ∧
      (rtc_init status s).fatalError = none) ∧
    (status ≠ CY_RTC_SUCCESS →
      (rtc_init status s).fatalError = some status ∧
      (rtc_init status s).state.enabled = false ∧
      (rtc_init status s).state.hw = s.hw) := by
  unfold rtc_init
  rw [if_neg (by simp [hen])]
  dsimp only
  simp only [CY_RTC_IS_SEC_VALID, CY_RTC_IS_MIN_VALID, CY_RTC_IS_HOUR_VALID,
    CY_RTC_IS_DOW_VALID, CY_RTC_IS_MONTH_VALID, CY_RTC_IS_YEAR_SHORT_VALID,
    Bool.and_eq_true, decide_eq_true_eq, beq_iff_eq]
  split_ifs with hc hd
  · rcases hbad with h | h
    · exact absurd hc.2 h
    · omega
  · refine ⟨rtc_reinit_programmed _ _, fun hs => ?_, fun hs => ?_⟩
    · rw [hs, rtc_reinit_success]
      exact ⟨rfl, rfl, rfl⟩
    · rw [rtc_reinit_failure status _ hs]
      exact ⟨rfl, hen, rfl⟩
  · refine ⟨rtc_reinit_programmed _ _, fun hs => ?_, fun hs => ?_⟩
    · rw [hs, rtc_reinit_success]
      exact ⟨rfl, rfl, rfl⟩
    · rw [rtc_reinit_failure status _ hs]
      exact ⟨rfl, hen, rfl⟩

/-- Witness for C4 at the all-zero state (magic tag absent) with a
succeeding driver. -/
theorem c4_witness :
    zeroState.enabled = false ∧
    zeroState.breg &&& BR_CORR_MAGIC_MASK ≠ BR_CORR_MAGIC ∧
    (rtc_init 0 zeroState).programmed = true ∧
    (rtc_init 0 zeroState).state.hw = init_val 70 ∧
    (rtc_init 0 zeroState).state.enabled = true :=
  have h := c4_bad_state_reprograms 0 zeroState rfl (Or.inl (by decide))
  ⟨rfl, by decide, h.1, (h.2.1 rfl).1, (h.2.1 rfl).2.1⟩

/-- After a successful write of broken-down time `g`, reading the hardware
record back yields exactly `g`: the stored fields come back verbatim, the
month shift cancels, and the century codec round-trips the year. -/
theorem read_gmt_written (g : Tm) (s : RtcState) (h399 : g.tm_year ≤ 399) :
    rtc_read_gmt (writtenState g s) = g := by
  have hcodec := codec_roundtrip g.tm_year h399
  unfold rtc_read_gmt writtenState
  dsimp only
  rw [hcodec]
  rw [Nat.add_sub_cancel]

/-- C1: for every epoch timestamp between 1970-01-01T00:00:00Z (0) and
2069-12-31T23:59:59Z (3155759999), writing it with an accepting driver and
then reading returns exactly the original timestamp, from any prior
state. -/
theorem c1_write_read_roundtrip (s : RtcState) (t : Int)
    (h0 : 0 ≤ t) (h1 : t ≤ 3155759999) :
    (rtc_read (rtc_write CY_RTC_SUCCESS t s).state).fst = t := by
  have hn : ((t.toNat : Int)) = t := Int.toNat_of_nonneg h0
  have hn32 : t.toNat < 4294967296 := by omega
  have hloc : _rtc_localtime t = some (localTm t.toNat) := by
    unfold _rtc_localtime
    rw [if_neg (by omega)]
  obtain ⟨hy1, hy2, hy3, hy4⟩ := year_split (t.toNat / 86400)
  have hty169 : (yearDoyFromDays (t.toNat / 86400)).fst ≤ 169 :=
    year_le_169 _ (by omega)
  have hty : (localTm t.toNat).tm_year = (yearDoyFromDays (t.toNat / 86400)).fst := rfl
  have hst : (rtc_write CY_RTC_SUCCESS t s).state = writtenState (localTm t.toNat) s := by
    unfold rtc_write
    rw [hloc]
    dsimp only
    rw [if_pos (by decide)]
  rw [hst]
  unfold rtc_read
  dsimp only
  rw [read_gmt_written (localTm t.toNat) s (by omega)]
  rw [maketime_localTm t.toNat hn32]
  exact hn

/-- Witness for C1 at timestamp 0 from the all-zero state. -/
theorem c1_witness :
    (0 : Int) ≤ 0 ∧ (0 : Int) ≤ 3155759999 ∧
    (rtc_read (rtc_write CY_RTC_SUCCESS 0 zeroState).state).fst = 0 :=
  ⟨le_refl 0, by decide, c1_write_read_roundtrip zeroState 0 (by decide) (by decide)⟩

end PSoC6RTC
